import Mathlib

/-!
Verification of the GKompaniet contest backend (`src/backend/app/main.py`).

The backend is a FastAPI application over a PostgreSQL datastore with four
endpoints: `GET /api/status`, `POST /api/enter-code`, `POST /api/submit-contact`
and `POST /api/admin/reset`.  Each handler runs a single transaction that takes
`FOR UPDATE` row locks, so under the database's locking discipline concurrent
requests serialize; we therefore model the datastore as an explicit state value
threaded through pure Lean functions, one per handler, and model a concurrent
execution as an arbitrary serialization order of the requests.

Modelling conventions:
* timestamps are natural numbers (seconds); `NOW()` is an explicit `now`
  parameter; `timedelta(minutes=m)` is `m * 60`.
* the argon2 `ph.verify(CODE_HASH, code)` call is an explicit function
  parameter `verifyCode : String → Bool` (a mismatch raising
  `VerifyMismatchError` is `false`, exactly as the handler catches it).
* `hashlib.sha256(...).hexdigest()` is an explicit function parameter
  `sha256hex : String → String`; the handlers only ever use it to map a raw
  token to the digest it is stored and looked up under.
* SQL tables are association lists keyed by their primary key; the singleton
  `contest_state` row (id = 1) is an `Option ContestRow` (`none` = row absent).
* Python truthiness of a nullable string column (`state.get("winner_actor_hash")`)
  is `truthyStr`: `None` and `""` are falsy.  Truthiness of a nullable
  timestamp is just presence (datetimes are always truthy in Python).
* a rolled-back transaction returns the response together with the unchanged
  state; a committed one returns the mutated state.
-/

namespace GKompaniet

/-- A row of `attempt_locks`, keyed by `actor_hash`:
`failed_count INT`, `blocked_until TIMESTAMP NULL`. -/
structure AttemptLock where
  failed_count : Nat
  blocked_until : Option Nat
deriving Repr, DecidableEq

/-- The singleton `contest_state` row (id = 1). -/
structure ContestRow where
  winner_actor_hash : Option String
  winner_claimed_at : Option Nat
  contact_submitted : Bool
deriving Repr, DecidableEq

/-- A row of `winner_claim_tokens`, keyed by `token_hash`. -/
structure ClaimTokenRow where
  actor_hash : String
  expires_at : Nat
  used_at : Option Nat
deriving Repr, DecidableEq

/-- A row of `winner_contacts`. -/
structure WinnerContactRow where
  actor_hash : String
  name : String
  email : String
  phone : Option String
deriving Repr, DecidableEq

/-- The whole datastore. -/
structure DB where
  contest : Option ContestRow
  attempt_locks : List (String × AttemptLock)
  claim_tokens : List (String × ClaimTokenRow)
  winner_contacts : List WinnerContactRow
deriving Repr, DecidableEq

/-- `SELECT ... WHERE key=$1`: first row with the given key. -/
def lookup {α : Type} (l : List (String × α)) (k : String) : Option α :=
  match l with
  | [] => none
  | p :: rest => if p.1 = k then some p.2 else lookup rest k

/-- `UPDATE ... WHERE key=$1`: rewrite every row with the given key. -/
def listUpdate {α : Type} (l : List (String × α)) (k : String) (f : α → α) :
    List (String × α) :=
  l.map (fun p => if p.1 = k then (p.1, f p.2) else p)

/-- Python `str.strip()`: drop whitespace from both ends.  (Defined over the
character list so that it reduces in the kernel; `String.trim` does not.) -/
def pyStrip (s : String) : String :=
  ⟨(((s.data.dropWhile Char.isWhitespace).reverse.dropWhile Char.isWhitespace).reverse)⟩

/-- Python truthiness of a nullable string: `None` and `""` are falsy. -/
def truthyStr : Option String → Bool
  | none => false
  | some s => !(s == "")

/-- `winner_actor_hash` of the singleton row, `none` when the row is absent. -/
def DB.winner (db : DB) : Option String :=
  db.contest.bind (fun c => c.winner_actor_hash)

/-- One character of the code shape `[0-9A-Z]`. -/
def isCodeChar (c : Char) : Bool :=
  c.isDigit || (('A' ≤ c) && (c ≤ 'Z'))

/-- `re.fullmatch(r"[0-9A-Z]{4}", code)`: exactly four chars of `[0-9A-Z]`. -/
def validCodeFormat (code : String) : Bool :=
  code.length == 4 && code.toList.all isCodeChar

/-- The block check of `enter_code`
(`lock and lock.get("blocked_until") and lock["blocked_until"] > now`):
the active deadline, or `none` when there is no lock row, no block,
or the block has expired. -/
def activeBlock (lock : Option AttemptLock) (now : Nat) : Option Nat :=
  match lock with
  | none => none
  | some l =>
    match l.blocked_until with
    | none => none
    | some bu => if now < bu then some bu else none

/-- The JSON responses the handlers can produce. -/
inductive Response where
  | invalidFormat
  | alreadyWon
  | blocked (blockedUntil : Nat)
  | wrongCode (remaining : Int)
  | winOk (claimToken : String)
  | invalidPayload
  | unauthorized
  | contactOk (emailSent : Bool)
  | notFound
  | resetOk
deriving Repr, DecidableEq

/-- The HTTP status code attached to each response in the source. -/
def Response.statusCode : Response → Nat
  | .invalidFormat => 400
  | .alreadyWon => 409
  | .blocked _ => 429
  | .wrongCode _ => 401
  | .winOk _ => 200
  | .invalidPayload => 400
  | .unauthorized => 401
  | .contactOk _ => 200
  | .notFound => 404
  | .resetOk => 200

/-- Datastore statements a handler can execute (used to record which
requests touch the datastore at all). -/
inductive DbAccess where
  | readContestState
  | readAttemptLock
  | writeAttemptLock
  | writeContestState
  | writeClaimToken
  | readClaimToken
  | writeWinnerContact
deriving Repr, DecidableEq

/-- Result of one `enter_code` request: response, resulting datastore, and
the list of datastore statements the request executed. -/
structure EnterCodeResult where
  response : Response
  db : DB
  accesses : List DbAccess
deriving Repr, DecidableEq

/-- `POST /api/enter-code` (`enter_code` in `main.py`).
`actorHash` is the resolver's `get_actor_hash` output (a sha256 hex digest),
`bodyCode` the request body's `code`, `verifyCode` the argon2 check against
`CODE_HASH`, `now` the transaction's clock, `blockMinutes` the `BLOCK_MINUTES`
setting, `sha256hex` the digest function and `rawToken` the value
`secrets.token_hex(32)` produced on the winning path. -/
def enter_code (db : DB) (actorHash bodyCode : String)
    (verifyCode : String → Bool) (now blockMinutes : Nat)
    (sha256hex : String → String) (rawToken : String) : EnterCodeResult :=
  let code := pyStrip bodyCode
  if !(validCodeFormat code) then
    ⟨.invalidFormat, db, []⟩
  else
    -- SELECT winner_actor_hash FROM contest_state WHERE id=1 FOR UPDATE
    if truthyStr db.winner then
      ⟨.alreadyWon, db, [.readContestState]⟩
    else
      -- SELECT failed_count, blocked_until FROM attempt_locks WHERE actor_hash=$1 FOR UPDATE
      let lock := lookup db.attempt_locks actorHash
      match activeBlock lock now with
      | some bu => ⟨.blocked bu, db, [.readContestState, .readAttemptLock]⟩
      | none =>
        if !(verifyCode code) then
          let failed : Nat := (match lock with | some l => l.failed_count | none => 0) + 1
          let locks1 :=
            match lock with
            | none => db.attempt_locks ++ [(actorHash, ⟨failed, none⟩)]
            | some _ =>
              listUpdate db.attempt_locks actorHash
                (fun x => { x with failed_count := failed })
          if 3 ≤ failed then
            let bu := now + blockMinutes * 60
            let locks2 :=
              listUpdate locks1 actorHash
                (fun x => { x with failed_count := 0, blocked_until := some bu })
            ⟨.blocked bu, { db with attempt_locks := locks2 },
              [.readContestState, .readAttemptLock, .writeAttemptLock, .writeAttemptLock]⟩
          else
            let remaining : Int := max 0 (3 - (failed : Int))
            ⟨.wrongCode remaining, { db with attempt_locks := locks1 },
              [.readContestState, .readAttemptLock, .writeAttemptLock]⟩
        else
          -- correct code: create claim token and set winner
          let tokenHash := sha256hex rawToken
          let contest1 := db.contest.map
            (fun c => { c with winner_actor_hash := some actorHash,
                               winner_claimed_at := some now })
          let tokens1 := db.claim_tokens ++ [(tokenHash, ⟨actorHash, now + 15 * 60, none⟩)]
          ⟨.winOk rawToken, { db with contest := contest1, claim_tokens := tokens1 },
            [.readContestState, .readAttemptLock, .writeContestState, .writeClaimToken]⟩

/-- `GET /api/status` returns `{"ok": True, "closed": closed}` with
`closed = bool(row and row.get("winner_actor_hash"))`. -/
structure StatusResult where
  ok : Bool
  closed : Bool
deriving Repr, DecidableEq

/-- `GET /api/status` (`status` in `main.py`).  The handler only executes a
`SELECT`, so it returns the datastore unchanged. -/
def status (db : DB) : StatusResult × DB :=
  (⟨true, truthyStr db.winner⟩, db)

/-- `(body.phone or "").strip() or None`. -/
def phoneNorm : Option String → Option String
  | none => none
  | some p => if pyStrip p = "" then none else some (pyStrip p)

/-- Result of one `submit_contact` request. -/
structure SubmitContactResult where
  response : Response
  db : DB
deriving Repr, DecidableEq

/-- `POST /api/submit-contact` (`submit_contact` in `main.py`).
`_request` stands for the caller's identity (actor hash) derivable from the
request argument; the handler binds that argument as `_request` and never
reads it, so the parameter is unused here exactly as in the source.  `emailConfigured`
models `SMTP_HOST and SMTP_TO and SMTP_FROM`, and `emailDelivered` the outcome
of the post-commit `send_email_sync` call (which cannot affect the datastore). -/
def submit_contact (db : DB) (_request : String)
    (bodyClaimToken bodyName bodyEmail : String) (bodyPhone : Option String)
    (sha256hex : String → String) (now : Nat)
    (emailConfigured emailDelivered : Bool) : SubmitContactResult :=
  let claimToken := pyStrip bodyClaimToken
  if claimToken = "" || bodyName = "" || bodyEmail = "" then
    ⟨.invalidPayload, db⟩
  else
    let tokenHash := sha256hex claimToken
    match lookup db.claim_tokens tokenHash with
    | none => ⟨.unauthorized, db⟩
    | some t =>
      if t.used_at.isSome || t.expires_at < now then
        ⟨.unauthorized, db⟩
      else
        let contacts1 := db.winner_contacts ++
          [⟨t.actor_hash, pyStrip bodyName, pyStrip bodyEmail, phoneNorm bodyPhone⟩]
        let tokens1 := listUpdate db.claim_tokens tokenHash
          (fun x => { x with used_at := some now })
        let contest1 := db.contest.map (fun c => { c with contact_submitted := true })
        ⟨.contactOk (emailConfigured && emailDelivered),
          { db with contest := contest1, claim_tokens := tokens1,
                    winner_contacts := contacts1 }⟩

/-- `POST /api/admin/reset` (`admin_reset` in `main.py`).
`testMode` is the `TEST_MODE` flag, `adminResetKey` the `ADMIN_RESET_KEY`
setting, `headerKey` the `x-reset-key` request header (`none` when absent).
`if not key or key != ADMIN_RESET_KEY` rejects an absent, empty or mismatched
key. -/
def admin_reset (db : DB) (testMode : Bool) (adminResetKey : String)
    (headerKey : Option String) : Response × DB :=
  if !testMode then
    (.notFound, db)
  else
    match headerKey with
    | none => (.unauthorized, db)
    | some k =>
      if k = "" || k ≠ adminResetKey then
        (.unauthorized, db)
      else
        let contest1 := db.contest.map
          (fun c => { c with winner_actor_hash := none,
                             winner_claimed_at := none,
                             contact_submitted := false })
        (.resetOk, ⟨contest1, [], [], []⟩)

/-- The provisioned datastore: the singleton `contest_state` row exists with
null winner fields, and the other tables are empty. -/
def initialDB : DB :=
  ⟨some ⟨none, none, false⟩, [], [], []⟩

/-- Datastore states reachable from the provisioned state through the
handlers.  The `actorHash` of an `enter_code` step is the output of
`get_actor_hash`, a sha256 hex digest, hence a 64-character string; the
invariant proofs only need that it is nonempty. -/
inductive Reachable : DB → Prop where
  | init : Reachable initialDB
  | enterCode (db : DB) (a code : String) (verify : String → Bool)
      (now bm : Nat) (h : String → String) (tok : String)
      (ha : a ≠ "") (hdb : Reachable db) :
      Reachable (enter_code db a code verify now bm h tok).db
  | submitContact (db : DB) (caller ct n e : String) (p : Option String)
      (h : String → String) (now : Nat) (ec ed : Bool) (hdb : Reachable db) :
      Reachable (submit_contact db caller ct n e p h now ec ed).db
  | adminReset (db : DB) (tm : Bool) (ak : String) (hk : Option String)
      (hdb : Reachable db) :
      Reachable (admin_reset db tm ak hk).2

/-- One code submission: the acting identity, the submitted code, the
transaction clock and the fresh random token minted on the winning path. -/
structure Submission where
  actorHash : String
  code : String
  now : Nat
  rawToken : String

/-- A serialization of a batch of concurrent `enter_code` requests: each
transaction holds the singleton row's lock until commit, so any concurrent
execution is equivalent to running the requests in some order. -/
def runSubmissions (verify : String → Bool) (bm : Nat)
    (sha256hex : String → String) (db : DB) :
    List Submission → List Response × DB
  | [] => ([], db)
  | s :: rest =>
    let r := enter_code db s.actorHash s.code verify s.now bm sha256hex s.rawToken
    let rec1 := runSubmissions verify bm sha256hex r.db rest
    (r.response :: rec1.1, rec1.2)

/-! ### Association-list lemmas -/

theorem lookup_listUpdate_self {α : Type} (l : List (String × α)) (k : String)
    (f : α → α) : lookup (listUpdate l k f) k = (lookup l k).map f := by
  induction l with
  | nil => rfl
  | cons p rest ih =>
    by_cases hp : p.1 = k
    · simp [listUpdate, lookup, hp]
    · simp [listUpdate, lookup, hp] at ih ⊢
      exact ih

theorem lookup_listUpdate_ne {α : Type} (l : List (String × α)) (k k' : String)
    (f : α → α) (hk : k' ≠ k) :
    lookup (listUpdate l k f) k' = lookup l k' := by
  induction l with
  | nil => rfl
  | cons p rest ih =>
    by_cases hp : p.1 = k
    · simp [listUpdate, lookup, hp, Ne.symm hk] at ih ⊢
      exact ih
    · by_cases hp' : p.1 = k'
      · simp [listUpdate, lookup, hp, hp', hk]
      · simp [listUpdate, lookup, hp, hp'] at ih ⊢
        exact ih

theorem lookup_append_self {α : Type} (l : List (String × α)) (k : String) (v : α)
    (h : lookup l k = none) : lookup (l ++ [(k, v)]) k = some v := by
  induction l with
  | nil => simp [lookup]
  | cons p rest ih =>
    by_cases hp : p.1 = k
    · simp [lookup, hp] at h
    · simp [lookup, hp] at h ⊢
      exact ih h

theorem lookup_append_ne {α : Type} (l : List (String × α)) (k k' : String) (v : α)
    (hk : k' ≠ k) : lookup (l ++ [(k, v)]) k' = lookup l k' := by
  induction l with
  | nil => simp [lookup, Ne.symm hk]
  | cons p rest ih =>
    by_cases hp : p.1 = k'
    · simp [lookup, hp]
    · simp [lookup, hp]
      exact ih

theorem listUpdate_listUpdate {α : Type} (l : List (String × α)) (k : String)
    (f g : α → α) :
    listUpdate (listUpdate l k f) k g = listUpdate l k (fun x => g (f x)) := by
  induction l with
  | nil => rfl
  | cons p rest ih =>
    by_cases hp : p.1 = k
    · simp [listUpdate, hp] at ih ⊢
      exact ih
    · simp [listUpdate, hp] at ih ⊢
      exact ih

theorem mem_listUpdate {α : Type} {l : List (String × α)} {k : String} {f : α → α}
    {p : String × α} (hp : p ∈ listUpdate l k f) :
    (∃ q ∈ l, p = (q.1, f q.2)) ∨ p ∈ l := by
  rcases List.mem_map.1 hp with ⟨q, hq, hgq⟩
  by_cases h : q.1 = k
  · left
    refine ⟨q, hq, ?_⟩
    simp only [h, if_true, eq_self_iff_true] at hgq
    rw [← hgq, h]
  · right
    simp only [if_neg h] at hgq
    rwa [← hgq]

/-! ### Branch lemmas for `enter_code` -/

theorem enter_code_invalidFormat (db : DB) (a bodyCode : String)
    (v : String → Bool) (now bm : Nat) (h : String → String) (tok : String)
    (hfmt : validCodeFormat (pyStrip bodyCode) = false) :
    enter_code db a bodyCode v now bm h tok = ⟨.invalidFormat, db, []⟩ := by
  simp [enter_code, hfmt]

theorem enter_code_alreadyWon (db : DB) (a bodyCode : String)
    (v : String → Bool) (now bm : Nat) (h : String → String) (tok : String)
    (hfmt : validCodeFormat (pyStrip bodyCode) = true)
    (hwon : truthyStr db.winner = true) :
    enter_code db a bodyCode v now bm h tok
      = ⟨.alreadyWon, db, [.readContestState]⟩ := by
  simp [enter_code, hfmt, hwon]

theorem enter_code_blocked (db : DB) (a bodyCode : String)
    (v : String → Bool) (now bm : Nat) (h : String → String) (tok : String)
    (bu : Nat) (hfmt : validCodeFormat (pyStrip bodyCode) = true)
    (hwon : truthyStr db.winner = false)
    (hbl : activeBlock (lookup db.attempt_locks a) now = some bu) :
    enter_code db a bodyCode v now bm h tok
      = ⟨.blocked bu, db, [.readContestState, .readAttemptLock]⟩ := by
  simp [enter_code, hfmt, hwon, hbl]

theorem enter_code_wrong_fresh (db : DB) (a bodyCode : String)
    (v : String → Bool) (now bm : Nat) (h : String → String) (tok : String)
    (hfmt : validCodeFormat (pyStrip bodyCode) = true)
    (hwon : truthyStr db.winner = false)
    (hlock : lookup db.attempt_locks a = none)
    (hv : v (pyStrip bodyCode) = false) :
    enter_code db a bodyCode v now bm h tok
      = ⟨.wrongCode 2,
         { db with attempt_locks := db.attempt_locks ++ [(a, ⟨1, none⟩)] },
         [.readContestState, .readAttemptLock, .writeAttemptLock]⟩ := by
  simp [enter_code, hfmt, hwon, hlock, hv, activeBlock]

theorem enter_code_wrong_inc (db : DB) (a bodyCode : String)
    (v : String → Bool) (now bm : Nat) (h : String → String) (tok : String)
    (l : AttemptLock) (hfmt : validCodeFormat (pyStrip bodyCode) = true)
    (hwon : truthyStr db.winner = false)
    (hlock : lookup db.attempt_locks a = some l)
    (hbl : activeBlock (some l) now = none)
    (hv : v (pyStrip bodyCode) = false)
    (hcnt : l.failed_count + 1 < 3) :
    enter_code db a bodyCode v now bm h tok
      = ⟨.wrongCode (3 - (l.failed_count + 1 : Int)),
         { db with attempt_locks :=
             (listUpdate db.attempt_locks a
               (fun x => { x with failed_count := l.failed_count + 1 })) },
         [.readContestState, .readAttemptLock, .writeAttemptLock]⟩ := by
  have hle : ¬ (3 ≤ l.failed_count + 1) := by omega
  have hmax : max 0 (3 - (l.failed_count + 1 : Int)) = 3 - (l.failed_count + 1 : Int) := by
    omega
  simp [enter_code, hfmt, hwon, hlock, hbl, hv, hle, hmax]

theorem enter_code_wrong_toBlock (db : DB) (a bodyCode : String)
    (v : String → Bool) (now bm : Nat) (h : String → String) (tok : String)
    (l : AttemptLock) (hfmt : validCodeFormat (pyStrip bodyCode) = true)
    (hwon : truthyStr db.winner = false)
    (hlock : lookup db.attempt_locks a = some l)
    (hbl : activeBlock (some l) now = none)
    (hv : v (pyStrip bodyCode) = false)
    (hcnt : 3 ≤ l.failed_count + 1) :
    enter_code db a bodyCode v now bm h tok
      = ⟨.blocked (now + bm * 60),
         { db with attempt_locks :=
             (listUpdate db.attempt_locks a
               (fun _ => ⟨0, some (now + bm * 60)⟩)) },
         [.readContestState, .readAttemptLock, .writeAttemptLock,
          .writeAttemptLock]⟩ := by
  simp only [enter_code, hfmt, hwon, hlock, hbl, hv, Bool.not_true, Bool.not_false,
    Bool.false_eq_true, if_false, if_true, hcnt, if_pos, listUpdate_listUpdate]

theorem enter_code_win (db : DB) (a bodyCode : String)
    (v : String → Bool) (now bm : Nat) (h : String → String) (tok : String)
    (hfmt : validCodeFormat (pyStrip bodyCode) = true)
    (hwon : truthyStr db.winner = false)
    (hbl : activeBlock (lookup db.attempt_locks a) now = none)
    (hv : v (pyStrip bodyCode) = true) :
    enter_code db a bodyCode v now bm h tok
      = ⟨.winOk tok,
         { db with
             contest := db.contest.map
               (fun c => { c with winner_actor_hash := some a,
                                  winner_claimed_at := some now }),
             claim_tokens := db.claim_tokens ++ [(h tok, ⟨a, now + 15 * 60, none⟩)] },
         [.readContestState, .readAttemptLock, .writeContestState,
          .writeClaimToken]⟩ := by
  simp [enter_code, hfmt, hwon, hbl, hv]

/-- Exhaustive case split of `enter_code`: every request takes exactly one of
the seven branches of the handler. -/
theorem enter_code_shape (db : DB) (a bodyCode : String) (v : String → Bool)
    (now bm : Nat) (h : String → String) (tok : String) :
    enter_code db a bodyCode v now bm h tok = ⟨.invalidFormat, db, []⟩
    ∨ enter_code db a bodyCode v now bm h tok
        = ⟨.alreadyWon, db, [.readContestState]⟩
    ∨ (∃ bu, enter_code db a bodyCode v now bm h tok
        = ⟨.blocked bu, db, [.readContestState, .readAttemptLock]⟩)
    ∨ (lookup db.attempt_locks a = none
        ∧ enter_code db a bodyCode v now bm h tok
          = ⟨.wrongCode 2,
             { db with attempt_locks := db.attempt_locks ++ [(a, ⟨1, none⟩)] },
             [.readContestState, .readAttemptLock, .writeAttemptLock]⟩)
    ∨ (∃ l, lookup db.attempt_locks a = some l ∧ l.failed_count + 1 < 3
        ∧ enter_code db a bodyCode v now bm h tok
          = ⟨.wrongCode (3 - (l.failed_count + 1 : Int)),
             { db with attempt_locks :=
                 (listUpdate db.attempt_locks a
                   (fun x => { x with failed_count := l.failed_count + 1 })) },
             [.readContestState, .readAttemptLock, .writeAttemptLock]⟩)
    ∨ (∃ l, lookup db.attempt_locks a = some l ∧ 3 ≤ l.failed_count + 1
        ∧ enter_code db a bodyCode v now bm h tok
          = ⟨.blocked (now + bm * 60),
             { db with attempt_locks :=
                 (listUpdate db.attempt_locks a
                   (fun _ => ⟨0, some (now + bm * 60)⟩)) },
             [.readContestState, .readAttemptLock, .writeAttemptLock,
              .writeAttemptLock]⟩)
    ∨ (truthyStr db.winner = false
        ∧ enter_code db a bodyCode v now bm h tok
          = ⟨.winOk tok,
             { db with
                 contest := (db.contest.map
                   (fun c => { c with winner_actor_hash := some a,
                                      winner_claimed_at := some now })),
                 claim_tokens :=
                   (db.claim_tokens ++ [(h tok, ⟨a, now + 15 * 60, none⟩)]) },
             [.readContestState, .readAttemptLock, .writeContestState,
              .writeClaimToken]⟩) := by
  cases hfmt : validCodeFormat (pyStrip bodyCode) with
  | false =>
    exact Or.inl (enter_code_invalidFormat db a bodyCode v now bm h tok hfmt)
  | true =>
    cases hwon : truthyStr db.winner with
    | true =>
      exact Or.inr (Or.inl (enter_code_alreadyWon db a bodyCode v now bm h tok hfmt hwon))
    | false =>
      cases hbl : activeBlock (lookup db.attempt_locks a) now with
      | some bu =>
        exact Or.inr (Or.inr (Or.inl
          ⟨bu, enter_code_blocked db a bodyCode v now bm h tok bu hfmt hwon hbl⟩))
      | none =>
        cases hv : v (pyStrip bodyCode) with
        | true =>
          refine Or.inr (Or.inr (Or.inr (Or.inr (Or.inr (Or.inr ⟨rfl, ?_⟩)))))
          exact enter_code_win db a bodyCode v now bm h tok hfmt hwon hbl hv
        | false =>
          cases hlock : lookup db.attempt_locks a with
          | none =>
            refine Or.inr (Or.inr (Or.inr (Or.inl ⟨rfl, ?_⟩)))
            exact enter_code_wrong_fresh db a bodyCode v now bm h tok hfmt hwon hlock hv
          | some l =>
            rw [hlock] at hbl
            rcases Nat.lt_or_ge (l.failed_count + 1) 3 with hcnt | hcnt
            · refine Or.inr (Or.inr (Or.inr (Or.inr (Or.inl ⟨l, rfl, hcnt, ?_⟩))))
              exact enter_code_wrong_inc db a bodyCode v now bm h tok l hfmt hwon hlock hbl hv hcnt
            · refine Or.inr (Or.inr (Or.inr (Or.inr (Or.inr (Or.inl ⟨l, rfl, hcnt, ?_⟩)))))
              exact enter_code_wrong_toBlock db a bodyCode v now bm h tok l hfmt hwon hlock hbl hv hcnt

/-- Exhaustive case split of `submit_contact`: a rejected request leaves the
datastore unchanged, and a successful redemption performs exactly the three
writes of the handler. -/
theorem submit_contact_shape (db : DB) (caller ct n e : String) (p : Option String)
    (h : String → String) (now : Nat) (ec ed : Bool) :
    submit_contact db caller ct n e p h now ec ed = ⟨.invalidPayload, db⟩
    ∨ submit_contact db caller ct n e p h now ec ed = ⟨.unauthorized, db⟩
    ∨ (∃ t, lookup db.claim_tokens (h (pyStrip ct)) = some t
        ∧ t.used_at = none ∧ now ≤ t.expires_at
        ∧ submit_contact db caller ct n e p h now ec ed
          = ⟨.contactOk (ec && ed),
             { db with
                 contest := (db.contest.map (fun c => { c with contact_submitted := true })),
                 claim_tokens := (listUpdate db.claim_tokens (h (pyStrip ct))
                   (fun x => { x with used_at := some now })),
                 winner_contacts := (db.winner_contacts ++
                   [⟨t.actor_hash, pyStrip n, pyStrip e, phoneNorm p⟩]) }⟩) := by
  by_cases hval : pyStrip ct = "" ∨ n = "" ∨ e = ""
  · left
    simp only [submit_contact]
    rcases hval with hval | hval | hval <;> simp [hval]
  · push_neg at hval
    obtain ⟨h1, h2, h3⟩ := hval
    cases hlook : lookup db.claim_tokens (h (pyStrip ct)) with
    | none =>
      right; left
      simp [submit_contact, h1, h2, h3, hlook]
    | some t =>
      by_cases hused : t.used_at.isSome
      · right; left
        simp [submit_contact, h1, h2, h3, hlook, hused]
      · by_cases hexp : t.expires_at < now
        · right; left
          simp [submit_contact, h1, h2, h3, hlook, hused, hexp]
        · right; right
          refine ⟨t, rfl, Option.not_isSome_iff_eq_none.1 hused, Nat.le_of_not_lt hexp, ?_⟩
          simp [submit_contact, h1, h2, h3, hlook, hused, hexp]

/-- Exhaustive case split of `admin_reset`. -/
theorem admin_reset_shape (db : DB) (tm : Bool) (ak : String) (hk : Option String) :
    admin_reset db tm ak hk = (.notFound, db)
    ∨ admin_reset db tm ak hk = (.unauthorized, db)
    ∨ admin_reset db tm ak hk
        = (.resetOk,
           ⟨db.contest.map
              (fun c => { c with winner_actor_hash := none,
                                 winner_claimed_at := none,
                                 contact_submitted := false }), [], [], []⟩) := by
  cases tm with
  | false => left; rfl
  | true =>
    cases hk with
    | none => right; left; rfl
    | some k =>
      by_cases hke : k = "" ∨ k ≠ ak
      · right; left
        simp only [admin_reset]
        rcases hke with hke | hke <;> simp [hke]
      · push_neg at hke
        obtain ⟨hk1, rfl⟩ := hke
        right; right
        simp [admin_reset, hk1]

/-! ### Invariants of reachable datastore states -/

/-- Every `attempt_locks` row carries a failure count of at most 2: a count
reaching the threshold 3 is reset to 0 in the same transaction. -/
def lockInv (db : DB) : Prop :=
  ∀ p ∈ db.attempt_locks, p.2.failed_count ≤ 2

/-- A recorded winner hash is a nonempty string (it is a sha256 hex digest). -/
def winnerInv (db : DB) : Prop :=
  ∀ w, db.winner = some w → w ≠ ""

theorem lockInv_initialDB : lockInv initialDB := by
  intro p hp
  simp [initialDB] at hp

theorem winnerInv_initialDB : winnerInv initialDB := by
  intro w hw
  simp [initialDB, DB.winner] at hw

theorem lockInv_enter_code (db : DB) (a c : String) (v : String → Bool)
    (now bm : Nat) (h : String → String) (tok : String) (hinv : lockInv db) :
    lockInv (enter_code db a c v now bm h tok).db := by
  rcases enter_code_shape db a c v now bm h tok with
    heq | heq | ⟨bu, heq⟩ | ⟨hl, heq⟩ | ⟨l, hl, hcnt, heq⟩ | ⟨l, hl, hcnt, heq⟩ | ⟨hw, heq⟩
  · rw [heq]; exact hinv
  · rw [heq]; exact hinv
  · rw [heq]; exact hinv
  · rw [heq]
    intro p hp
    dsimp only at hp
    rcases List.mem_append.1 hp with hp | hp
    · exact hinv p hp
    · simp only [List.mem_singleton] at hp
      rw [hp]
      exact Nat.le_succ 1
  · rw [heq]
    intro p hp
    dsimp only at hp
    rcases mem_listUpdate hp with ⟨q, hq, hpq⟩ | hp
    · rw [hpq]
      exact Nat.lt_succ_iff.1 hcnt
    · exact hinv p hp
  · rw [heq]
    intro p hp
    dsimp only at hp
    rcases mem_listUpdate hp with ⟨q, hq, hpq⟩ | hp
    · rw [hpq]
      exact Nat.zero_le 2
    · exact hinv p hp
  · rw [heq]; exact hinv

/-- `submit_contact` never touches the `attempt_locks` table. -/
theorem submit_contact_locks (db : DB) (caller ct n e : String) (p : Option String)
    (h : String → String) (now : Nat) (ec ed : Bool) :
    (submit_contact db caller ct n e p h now ec ed).db.attempt_locks
      = db.attempt_locks := by
  rcases submit_contact_shape db caller ct n e p h now ec ed with
    heq | heq | ⟨t, hl, hu, hx, heq⟩ <;> rw [heq]

/-- `submit_contact` never changes `winner_actor_hash`. -/
theorem submit_contact_winner (db : DB) (caller ct n e : String) (p : Option String)
    (h : String → String) (now : Nat) (ec ed : Bool) :
    (submit_contact db caller ct n e p h now ec ed).db.winner = db.winner := by
  rcases submit_contact_shape db caller ct n e p h now ec ed with
    heq | heq | ⟨t, hl, hu, hx, heq⟩ <;> rw [heq]
  cases hc : db.contest <;> simp [DB.winner, hc]

theorem winnerInv_enter_code (db : DB) (a c : String) (v : String → Bool)
    (now bm : Nat) (h : String → String) (tok : String) (ha : a ≠ "")
    (hinv : winnerInv db) :
    winnerInv (enter_code db a c v now bm h tok).db := by
  rcases enter_code_shape db a c v now bm h tok with
    heq | heq | ⟨bu, heq⟩ | ⟨hl, heq⟩ | ⟨l, hl, hcnt, heq⟩ | ⟨l, hl, hcnt, heq⟩ | ⟨hw, heq⟩
  · rw [heq]; exact hinv
  · rw [heq]; exact hinv
  · rw [heq]; exact hinv
  · rw [heq]; exact hinv
  · rw [heq]; exact hinv
  · rw [heq]; exact hinv
  · rw [heq]
    intro w hwr
    cases hc : db.contest with
    | none => simp [DB.winner, hc] at hwr
    | some cr =>
      simp [DB.winner, hc] at hwr
      rw [← hwr]
      exact ha

theorem reachable_lockInv (db : DB) (h : Reachable db) : lockInv db := by
  induction h with
  | init => exact lockInv_initialDB
  | enterCode db a c v now bm hh tok ha hdb ih =>
    exact lockInv_enter_code db a c v now bm hh tok ih
  | submitContact db caller ct n e p hh now ec ed hdb ih =>
    intro q hq
    rw [submit_contact_locks db caller ct n e p hh now ec ed] at hq
    exact ih q hq
  | adminReset db tm ak hk hdb ih =>
    rcases admin_reset_shape db tm ak hk with heq | heq | heq <;> rw [heq]
    · exact ih
    · exact ih
    · intro q hq
      simp at hq

theorem reachable_winnerInv (db : DB) (h : Reachable db) : winnerInv db := by
  induction h with
  | init => exact winnerInv_initialDB
  | enterCode db a c v now bm hh tok ha hdb ih =>
    exact winnerInv_enter_code db a c v now bm hh tok ha ih
  | submitContact db caller ct n e p hh now ec ed hdb ih =>
    intro w hw
    rw [submit_contact_winner db caller ct n e p hh now ec ed] at hw
    exact ih w hw
  | adminReset db tm ak hk hdb ih =>
    rcases admin_reset_shape db tm ak hk with heq | heq | heq <;> rw [heq]
    · exact ih
    · exact ih
    · intro w hw
      cases hc : db.contest <;> simp [DB.winner, hc] at hw

/-- A reachable state with a truthy winner stays entirely unchanged under
`enter_code`: the handler rolls back with `already_won` (or rejects the format
before touching the datastore). -/
theorem enter_code_preserves_won (db : DB) (a c : String) (v : String → Bool)
    (now bm : Nat) (h : String → String) (tok : String)
    (hwon : truthyStr db.winner = true) :
    (enter_code db a c v now bm h tok).db = db := by
  cases hfmt : validCodeFormat (pyStrip c) with
  | false => rw [enter_code_invalidFormat db a c v now bm h tok hfmt]
  | true => rw [enter_code_alreadyWon db a c v now bm h tok hfmt hwon]

theorem truthyStr_some_ne {w : String} (hw : w ≠ "") : truthyStr (some w) = true := by
  simp [truthyStr, hw]

theorem lookup_mem {α : Type} {l : List (String × α)} {k : String} {v : α}
    (h : lookup l k = some v) : (k, v) ∈ l := by
  induction l with
  | nil => cases h
  | cons p rest ih =>
    by_cases hp : p.1 = k
    · simp only [lookup, if_pos hp, Option.some.injEq] at h
      have hpe : p = (k, v) := by
        obtain ⟨p1, p2⟩ := p
        simp only at hp h
        rw [hp, h]
      subst hpe
      exact List.mem_cons_self _ _
    · simp only [lookup, if_neg hp] at h
      exact List.mem_cons_of_mem p (ih h)

/-! ### Concrete states used by the witnesses and counterexamples -/

/-- The state after actor `"A"` wins from the provisioned state. -/
def dbWon : DB :=
  (enter_code initialDB "A" "AAAA" (fun _ => true) 0 10 id "T").db

/-- The state after actor `"A"` submits one wrong code from the provisioned
state. -/
def dbOneFail : DB :=
  (enter_code initialDB "A" "0000" (fun _ => false) 0 10 id "T").db

/-- Open contest, actor `"A"` blocked until 100. -/
def dbOpenBlocked : DB :=
  ⟨some ⟨none, none, false⟩, [("A", ⟨0, some 100⟩)], [], []⟩

/-- Contest won by `"W"`, actor `"A"` blocked until 100. -/
def dbWonBlocked : DB :=
  ⟨some ⟨some "W", some 0, false⟩, [("A", ⟨0, some 100⟩)], [], []⟩

/-- Won contest with one unredeemed claim token stored under digest `"T"`,
expiring at 900. -/
def dbToken : DB :=
  ⟨some ⟨some "A", some 0, false⟩, [], [("T", ⟨"A", 900, none⟩)], []⟩

/-! ### The claims -/

/-- C9: an `enter_code` request whose stripped code does not match the
`[0-9A-Z]{4}` shape is answered `400 invalid_format`, the datastore is
unchanged, and the request executes no datastore statement at all. -/
theorem C9_invalid_format_no_datastore (db : DB) (a bodyCode : String)
    (v : String → Bool) (now bm : Nat) (h : String → String) (tok : String)
    (hfmt : validCodeFormat (pyStrip bodyCode) = false) :
    (enter_code db a bodyCode v now bm h tok).response = .invalidFormat
    ∧ (enter_code db a bodyCode v now bm h tok).response.statusCode = 400
    ∧ (enter_code db a bodyCode v now bm h tok).db = db
    ∧ (enter_code db a bodyCode v now bm h tok).accesses = [] := by
  rw [enter_code_invalidFormat db a bodyCode v now bm h tok hfmt]
  exact ⟨rfl, rfl, rfl, rfl⟩

/-- C9 witness: evaluated on the lowercase code `"12a4"`. -/
theorem C9_witness :
    validCodeFormat (pyStrip "12a4") = false
    ∧ ((enter_code initialDB "A" "12a4" (fun _ => true) 0 10 id "T").response
         = .invalidFormat
       ∧ (enter_code initialDB "A" "12a4" (fun _ => true) 0 10 id "T").response.statusCode
         = 400
       ∧ (enter_code initialDB "A" "12a4" (fun _ => true) 0 10 id "T").db = initialDB
       ∧ (enter_code initialDB "A" "12a4" (fun _ => true) 0 10 id "T").accesses = []) :=
  ⟨by decide,
   C9_invalid_format_no_datastore initialDB "A" "12a4" (fun _ => true) 0 10 id "T"
     (by decide)⟩

/-- C5: for a well-formed code the handler checks the winner slot first —
if the contest is already won it answers `409 already_won` and rolls back,
whatever the actor's throttle row says and whether or not the code is
correct; only otherwise does it consult the throttle row, and an actively
blocked actor is answered `429` and rolled back whether or not the code is
correct, so a blocked actor can never win and the winner slot is untouched. -/
theorem C5_check_order (db : DB) (a bodyCode : String) (now bm : Nat)
    (h : String → String) (tok : String)
    (hfmt : validCodeFormat (pyStrip bodyCode) = true) :
    (truthyStr db.winner = true →
      ∀ v : String → Bool,
        enter_code db a bodyCode v now bm h tok
          = ⟨.alreadyWon, db, [.readContestState]⟩
        ∧ Response.alreadyWon.statusCode = 409)
    ∧ (truthyStr db.winner = false →
      ∀ bu, activeBlock (lookup db.attempt_locks a) now = some bu →
        ∀ v : String → Bool,
          enter_code db a bodyCode v now bm h tok
            = ⟨.blocked bu, db, [.readContestState, .readAttemptLock]⟩
          ∧ (enter_code db a bodyCode v now bm h tok).db.winner = db.winner
          ∧ (Response.blocked bu).statusCode = 429) := by
  constructor
  · intro hwon v
    exact ⟨enter_code_alreadyWon db a bodyCode v now bm h tok hfmt hwon, rfl⟩
  · intro hwon bu hbl v
    refine ⟨enter_code_blocked db a bodyCode v now bm h tok bu hfmt hwon hbl, ?_, rfl⟩
    rw [enter_code_blocked db a bodyCode v now bm h tok bu hfmt hwon hbl]

/-- C5 witness: a correct-code submission against a won state, and a
correct-code submission from a blocked actor against an open state. -/
theorem C5_witness :
    (enter_code dbWonBlocked "A" "AAAA" (fun _ => true) 50 10 id "U"
       = ⟨.alreadyWon, dbWonBlocked, [.readContestState]⟩)
    ∧ (enter_code dbOpenBlocked "A" "AAAA" (fun _ => true) 50 10 id "U"
       = ⟨.blocked 100, dbOpenBlocked, [.readContestState, .readAttemptLock]⟩) :=
  ⟨((C5_check_order dbWonBlocked "A" "AAAA" 50 10 id "U" (by decide)).1
      (by decide) (fun _ => true)).1,
   (((C5_check_order dbOpenBlocked "A" "AAAA" 50 10 id "U" (by decide)).2
      (by decide) 100 (by decide)) (fun _ => true)).1⟩

/-- C6 counterexample: the claim quantifies over every state and every code.
With the contest already won, a blocked actor's correct submission is
answered `409 already_won`, not `429 blocked`; and with an ill-formed code a
blocked actor is answered `400 invalid_format`, not `429 blocked`. -/
theorem C6_counterexample :
    ((enter_code dbWonBlocked "A" "AAAA" (fun _ => true) 50 10 id "T").response
        = Response.alreadyWon
     ∧ Response.alreadyWon ≠ Response.blocked 100)
    ∧ ((enter_code dbOpenBlocked "A" "aaaa" (fun _ => true) 50 10 id "T").response
        = Response.invalidFormat
     ∧ Response.invalidFormat ≠ Response.blocked 100) := by
  exact ⟨⟨by decide, by decide⟩, ⟨by decide, by decide⟩⟩

/-- C6 (amended): provided the submitted code is well-formed and the contest
is not already won, an actor whose `blocked_until` lies in the future is
answered `429 blocked` with exactly that deadline and the transaction rolls
back: the actor's throttle row (both `failed_count` and `blocked_until`) and
the rest of the datastore are unchanged. -/
theorem C6_blocked_no_mutation (db : DB) (a bodyCode : String) (v : String → Bool)
    (now bm : Nat) (h : String → String) (tok : String) (l : AttemptLock) (bu : Nat)
    (hfmt : validCodeFormat (pyStrip bodyCode) = true)
    (hwon : truthyStr db.winner = false)
    (hlock : lookup db.attempt_locks a = some l)
    (hbu : l.blocked_until = some bu) (hfut : now < bu) :
    (enter_code db a bodyCode v now bm h tok).response = .blocked bu
    ∧ (enter_code db a bodyCode v now bm h tok).response.statusCode = 429
    ∧ lookup (enter_code db a bodyCode v now bm h tok).db.attempt_locks a = some l
    ∧ (enter_code db a bodyCode v now bm h tok).db = db := by
  have hbl : activeBlock (lookup db.attempt_locks a) now = some bu := by
    simp [activeBlock, hlock, hbu, hfut]
  rw [enter_code_blocked db a bodyCode v now bm h tok bu hfmt hwon hbl]
  exact ⟨rfl, rfl, hlock, rfl⟩

/-- C6 witness: blocked actor `"A"` of `dbOpenBlocked` submits a well-formed
wrong code before the deadline. -/
theorem C6_witness :
    (enter_code dbOpenBlocked "A" "0000" (fun _ => false) 50 10 id "T").response
      = .blocked 100
    ∧ (enter_code dbOpenBlocked "A" "0000" (fun _ => false) 50 10 id "T").response.statusCode
      = 429
    ∧ lookup (enter_code dbOpenBlocked "A" "0000" (fun _ => false) 50 10 id "T").db.attempt_locks
        "A" = some ⟨0, some 100⟩
    ∧ (enter_code dbOpenBlocked "A" "0000" (fun _ => false) 50 10 id "T").db
      = dbOpenBlocked :=
  C6_blocked_no_mutation dbOpenBlocked "A" "0000" (fun _ => false) 50 10 id "T"
    ⟨0, some 100⟩ 100 (by decide) (by decide) (by decide) (by decide) (by decide)

/-- C3: with the contest open and the actor not actively blocked, a
well-formed wrong code increments the actor's `failed_count` (creating the
row at 1 when absent); when the new count reaches 3 the row is reset to 0
with `blocked_until = now + BLOCK_MINUTES` and the answer is `429 blocked`,
otherwise the answer is `401 wrong_code` with `remaining = 3 - failed_count`;
in particular three consecutive wrong submissions give `remaining = 2`,
`remaining = 1`, then `blocked`. -/
theorem C3_wrong_code_throttle (db : DB) (a bodyCode : String) (v : String → Bool)
    (now bm : Nat) (h : String → String) (tok : String)
    (hwon : truthyStr db.winner = false)
    (hbl : activeBlock (lookup db.attempt_locks a) now = none)
    (hfmt : validCodeFormat (pyStrip bodyCode) = true)
    (hv : v (pyStrip bodyCode) = false) :
    (lookup db.attempt_locks a = none →
       (enter_code db a bodyCode v now bm h tok).response = .wrongCode 2
       ∧ (enter_code db a bodyCode v now bm h tok).response.statusCode = 401
       ∧ lookup (enter_code db a bodyCode v now bm h tok).db.attempt_locks a
           = some ⟨1, none⟩)
    ∧ (∀ l, lookup db.attempt_locks a = some l → l.failed_count + 1 < 3 →
       (enter_code db a bodyCode v now bm h tok).response
           = .wrongCode (3 - (l.failed_count + 1 : Int))
       ∧ (enter_code db a bodyCode v now bm h tok).response.statusCode = 401
       ∧ lookup (enter_code db a bodyCode v now bm h tok).db.attempt_locks a
           = some ⟨l.failed_count + 1, l.blocked_until⟩)
    ∧ (∀ l, lookup db.attempt_locks a = some l → 3 ≤ l.failed_count + 1 →
       (enter_code db a bodyCode v now bm h tok).response = .blocked (now + bm * 60)
       ∧ (enter_code db a bodyCode v now bm h tok).response.statusCode = 429
       ∧ lookup (enter_code db a bodyCode v now bm h tok).db.attempt_locks a
           = some ⟨0, some (now + bm * 60)⟩)
    ∧ (runSubmissions (fun _ => false) 10 id initialDB
         [⟨"A", "0000", 0, "t1"⟩, ⟨"A", "1111", 1, "t2"⟩, ⟨"A", "2222", 2, "t3"⟩]).1
        = [.wrongCode 2, .wrongCode 1, .blocked 602] := by
  refine ⟨?_, ?_, ?_, by decide⟩
  · intro hlock
    rw [enter_code_wrong_fresh db a bodyCode v now bm h tok hfmt hwon hlock hv]
    refine ⟨rfl, rfl, ?_⟩
    exact lookup_append_self db.attempt_locks a ⟨1, none⟩ hlock
  · intro l hlock hcnt
    rw [hlock] at hbl
    rw [enter_code_wrong_inc db a bodyCode v now bm h tok l hfmt hwon hlock hbl hv hcnt]
    refine ⟨rfl, rfl, ?_⟩
    dsimp only
    rw [lookup_listUpdate_self, hlock]
    rfl
  · intro l hlock hcnt
    rw [hlock] at hbl
    rw [enter_code_wrong_toBlock db a bodyCode v now bm h tok l hfmt hwon hlock hbl hv hcnt]
    refine ⟨rfl, rfl, ?_⟩
    dsimp only
    rw [lookup_listUpdate_self, hlock]
    rfl

/-- C3 witness: actor `"A"` submits a second wrong code after `dbOneFail`. -/
theorem C3_witness :
    (enter_code dbOneFail "A" "1111" (fun _ => false) 1 10 id "U").response
      = .wrongCode 1
    ∧ (enter_code dbOneFail "A" "1111" (fun _ => false) 1 10 id "U").response.statusCode
      = 401
    ∧ lookup (enter_code dbOneFail "A" "1111" (fun _ => false) 1 10 id "U").db.attempt_locks
        "A" = some ⟨2, none⟩ :=
  (C3_wrong_code_throttle dbOneFail "A" "1111" (fun _ => false) 1 10 id "U"
      (by decide) (by decide) (by decide) (by decide)).2.1
    ⟨1, none⟩ (by decide) (by decide)

/-- Once the contest is won (and for well-formed codes), every further
submission is answered `already_won` and the datastore never changes. -/
theorem runSubmissions_won (verify : String → Bool) (bm : Nat)
    (sha256hex : String → String) (db : DB)
    (hwon : truthyStr db.winner = true) (subs : List Submission)
    (hfmt : ∀ t ∈ subs, validCodeFormat (pyStrip t.code) = true) :
    (runSubmissions verify bm sha256hex db subs).1
        = subs.map (fun _ => Response.alreadyWon)
    ∧ (runSubmissions verify bm sha256hex db subs).2 = db := by
  induction subs with
  | nil => exact ⟨rfl, rfl⟩
  | cons t ts ih =>
    have h1 := enter_code_alreadyWon db t.actorHash t.code verify t.now bm
      sha256hex t.rawToken (hfmt t (List.mem_cons_self t ts)) hwon
    have ih2 := ih (fun u hu => hfmt u (List.mem_cons_of_mem t hu))
    simp only [runSubmissions, h1, List.map_cons]
    exact ⟨by rw [ih2.1], ih2.2⟩

/-- C1: from an open contest, for any serialization of a batch of well-formed
correct-code submissions whose first submitter is not blocked, the first
submission wins — it is answered `200` with its fresh claim token and writes
its actor hash into the winner slot — and every later submission is answered
`409 already_won`; the winner slot ends (and stays) at the first submitter. -/
theorem C1_exactly_one_winner (db : DB) (c : ContestRow) (verify : String → Bool)
    (bm : Nat) (sha256hex : String → String) (s : Submission)
    (rest : List Submission)
    (hc : db.contest = some c) (hopen : c.winner_actor_hash = none)
    (ha : s.actorHash ≠ "")
    (hnb : activeBlock (lookup db.attempt_locks s.actorHash) s.now = none)
    (hfmt : validCodeFormat (pyStrip s.code) = true)
    (hok : verify (pyStrip s.code) = true)
    (hrest : ∀ t ∈ rest, validCodeFormat (pyStrip t.code) = true) :
    (runSubmissions verify bm sha256hex db (s :: rest)).1
      = Response.winOk s.rawToken :: rest.map (fun _ => Response.alreadyWon)
    ∧ (runSubmissions verify bm sha256hex db (s :: rest)).2.winner
      = some s.actorHash
    ∧ (Response.winOk s.rawToken).statusCode = 200
    ∧ Response.alreadyWon.statusCode = 409 := by
  have hwon : truthyStr db.winner = false := by
    simp [DB.winner, hc, hopen, truthyStr]
  have hwin := enter_code_win db s.actorHash s.code verify s.now bm sha256hex
    s.rawToken hfmt hwon hnb hok
  set db1 : DB :=
    { db with
        contest := (db.contest.map
          (fun cr => { cr with winner_actor_hash := some s.actorHash,
                               winner_claimed_at := some s.now })),
        claim_tokens := (db.claim_tokens
          ++ [(sha256hex s.rawToken, ⟨s.actorHash, s.now + 15 * 60, none⟩)]) }
    with hdb1
  have hw1 : db1.winner = some s.actorHash := by
    simp [DB.winner, hdb1, hc]
  have hwon1 : truthyStr db1.winner = true := by
    rw [hw1]
    exact truthyStr_some_ne ha
  have hrest2 := runSubmissions_won verify bm sha256hex db1 hwon1 rest hrest
  refine ⟨?_, ?_, rfl, rfl⟩
  · simp only [runSubmissions, hwin]
    rw [hrest2.1]
  · simp only [runSubmissions, hwin]
    rw [hrest2.2]
    exact hw1

/-- C1 witness: two concurrent correct submissions, serialized with `"A"`
first and `"B"` second. -/
theorem C1_witness :
    (runSubmissions (fun _ => true) 10 id initialDB
       [⟨"A", "7421", 0, "tA"⟩, ⟨"B", "7421", 1, "tB"⟩]).1
      = [Response.winOk "tA", Response.alreadyWon]
    ∧ (runSubmissions (fun _ => true) 10 id initialDB
       [⟨"A", "7421", 0, "tA"⟩, ⟨"B", "7421", 1, "tB"⟩]).2.winner = some "A"
    ∧ (Response.winOk "tA").statusCode = 200
    ∧ Response.alreadyWon.statusCode = 409 := by
  have hmain := C1_exactly_one_winner initialDB ⟨none, none, false⟩ (fun _ => true)
    10 id ⟨"A", "7421", 0, "tA"⟩ [⟨"B", "7421", 1, "tB"⟩] rfl rfl (by decide)
    (by decide) (by decide) (by decide) (by decide)
  exact ⟨hmain.1, hmain.2.1, rfl, rfl⟩

/-- C2: in every reachable state with a set winner, neither `enter_code` nor
`submit_contact` changes the winner (and `status` is read-only); and whenever
`enter_code` does change the winner slot, the slot was null at the start of
the transaction. -/
theorem C2_winner_immutable (db : DB) (hdb : Reachable db) :
    (∀ w, db.winner = some w →
       (∀ a code v now bm h tok,
          (enter_code db a code v now bm h tok).db.winner = some w)
       ∧ (∀ caller ct n e p h now ec ed,
          (submit_contact db caller ct n e p h now ec ed).db.winner = some w)
       ∧ (status db).2 = db)
    ∧ (∀ a code v now bm h tok,
        (enter_code db a code v now bm h tok).db.winner ≠ db.winner →
        db.winner = none) := by
  have hinv := reachable_winnerInv db hdb
  constructor
  · intro w hw
    have hwon : truthyStr db.winner = true := by
      rw [hw]
      exact truthyStr_some_ne (hinv w hw)
    refine ⟨?_, ?_, rfl⟩
    · intro a code v now bm h tok
      rw [enter_code_preserves_won db a code v now bm h tok hwon, hw]
    · intro caller ct n e p h now ec ed
      rw [submit_contact_winner db caller ct n e p h now ec ed, hw]
  · intro a code v now bm h tok hne
    cases hw : db.winner with
    | none => rfl
    | some w =>
      exfalso
      apply hne
      have hwon : truthyStr db.winner = true := by
        rw [hw]
        exact truthyStr_some_ne (hinv w hw)
      rw [enter_code_preserves_won db a code v now bm h tok hwon]

/-- C2 witness: in the reachable won state `dbWon`, another actor's correct
submission leaves the winner slot at `"A"`. -/
theorem C2_witness :
    (enter_code dbWon "B" "BBBB" (fun _ => true) 5 10 id "U").db.winner
      = some "A" :=
  ((C2_winner_immutable dbWon
      (Reachable.enterCode initialDB "A" "AAAA" (fun _ => true) 0 10 id "T"
        (by decide) Reachable.init)).1 "A" (by decide)).1
    "B" "BBBB" (fun _ => true) 5 10 id "U"

/-- C10: in every reachable state each `attempt_locks` row has
`failed_count ≤ 2`, and consequently every `401 wrong_code` answer carries
`remaining ∈ {1, 2}` — never 0, so the `max(0, 3 - failed)` clamp never
clips. -/
theorem C10_failed_count_bounded (db : DB) (hdb : Reachable db) :
    (∀ a l, lookup db.attempt_locks a = some l → l.failed_count ≤ 2)
    ∧ (∀ a code v now bm h tok r,
        (enter_code db a code v now bm h tok).response = .wrongCode r →
        (r = 1 ∨ r = 2) ∧ r ≠ 0) := by
  have hinv := reachable_lockInv db hdb
  constructor
  · intro a l hl
    exact hinv (a, l) (lookup_mem hl)
  · intro a code v now bm h tok r hr
    rcases enter_code_shape db a code v now bm h tok with
      heq | heq | ⟨bu, heq⟩ | ⟨hl, heq⟩ | ⟨l, hl, hcnt, heq⟩ | ⟨l, hl, hcnt, heq⟩ | ⟨hw, heq⟩
    · rw [heq] at hr
      simp at hr
    · rw [heq] at hr
      simp at hr
    · rw [heq] at hr
      simp at hr
    · rw [heq] at hr
      simp only [Response.wrongCode.injEq] at hr
      omega
    · rw [heq] at hr
      simp only [Response.wrongCode.injEq] at hr
      have hle : l.failed_count ≤ 2 := hinv (a, l) (lookup_mem hl)
      omega
    · rw [heq] at hr
      simp at hr
    · rw [heq] at hr
      simp at hr

/-- C10 witness: the second wrong submission of actor `"A"` answers
`remaining = 1`. -/
theorem C10_witness :
    (enter_code dbOneFail "A" "1111" (fun _ => false) 1 10 id "U").response
      = Response.wrongCode 1
    ∧ (((1 : Int) = 1 ∨ (1 : Int) = 2) ∧ (1 : Int) ≠ 0) :=
  ⟨by decide,
   (C10_failed_count_bounded dbOneFail
      (Reachable.enterCode initialDB "A" "0000" (fun _ => false) 0 10 id "T"
        (by decide) Reachable.init)).2
     "A" "1111" (fun _ => false) 1 10 id "U" 1 (by decide)⟩

/-! ### Redemption lemmas for `submit_contact` -/

theorem submit_contact_no_row (db : DB) (caller ct n e : String) (p : Option String)
    (h : String → String) (now : Nat) (ec ed : Bool)
    (hct : pyStrip ct ≠ "") (hn : n ≠ "") (he : e ≠ "")
    (hl : lookup db.claim_tokens (h (pyStrip ct)) = none) :
    submit_contact db caller ct n e p h now ec ed = ⟨.unauthorized, db⟩ := by
  simp [submit_contact, hct, hn, he, hl]

theorem submit_contact_reject (db : DB) (caller ct n e : String) (p : Option String)
    (h : String → String) (now : Nat) (ec ed : Bool) (t : ClaimTokenRow)
    (hct : pyStrip ct ≠ "") (hn : n ≠ "") (he : e ≠ "")
    (hl : lookup db.claim_tokens (h (pyStrip ct)) = some t)
    (hrej : t.used_at.isSome ∨ t.expires_at < now) :
    submit_contact db caller ct n e p h now ec ed = ⟨.unauthorized, db⟩ := by
  rcases hrej with hrej | hrej <;> simp [submit_contact, hct, hn, he, hl, hrej]

theorem submit_contact_success (db : DB) (caller ct n e : String) (p : Option String)
    (h : String → String) (now : Nat) (ec ed : Bool) (t : ClaimTokenRow)
    (hct : pyStrip ct ≠ "") (hn : n ≠ "") (he : e ≠ "")
    (hl : lookup db.claim_tokens (h (pyStrip ct)) = some t)
    (hu : t.used_at = none) (hx : ¬ t.expires_at < now) :
    submit_contact db caller ct n e p h now ec ed
      = ⟨.contactOk (ec && ed),
         { db with
             contest := (db.contest.map (fun c => { c with contact_submitted := true })),
             claim_tokens := (listUpdate db.claim_tokens (h (pyStrip ct))
               (fun x => { x with used_at := some now })),
             winner_contacts := (db.winner_contacts ++
               [⟨t.actor_hash, pyStrip n, pyStrip e, phoneNorm p⟩]) }⟩ := by
  simp [submit_contact, hct, hn, he, hl, hu, hx]

/-- C4: a well-formed contact submission is answered `401 unauthorized` when
the token digest has no row, the token is already used, or it is expired —
in particular a replay of a redeemed token and any use after expiry — and on
the first valid redemption the transaction marks `used_at`, appends the
`winner_contacts` row, and flips `contact_submitted`. -/
theorem C4_token_redemption (db : DB) (caller ct n e : String) (p : Option String)
    (h : String → String) (now : Nat) (ec ed : Bool)
    (hct : pyStrip ct ≠ "") (hn : n ≠ "") (he : e ≠ "") :
    (lookup db.claim_tokens (h (pyStrip ct)) = none →
       submit_contact db caller ct n e p h now ec ed = ⟨.unauthorized, db⟩)
    ∧ (∀ t, lookup db.claim_tokens (h (pyStrip ct)) = some t →
        t.used_at.isSome ∨ t.expires_at < now →
        submit_contact db caller ct n e p h now ec ed = ⟨.unauthorized, db⟩
        ∧ Response.unauthorized.statusCode = 401)
    ∧ (∀ t, lookup db.claim_tokens (h (pyStrip ct)) = some t →
        t.used_at = none → ¬ t.expires_at < now →
        (submit_contact db caller ct n e p h now ec ed).response
            = .contactOk (ec && ed)
        ∧ lookup (submit_contact db caller ct n e p h now ec ed).db.claim_tokens
            (h (pyStrip ct)) = some ⟨t.actor_hash, t.expires_at, some now⟩
        ∧ (submit_contact db caller ct n e p h now ec ed).db.winner_contacts
            = db.winner_contacts ++ [⟨t.actor_hash, pyStrip n, pyStrip e, phoneNorm p⟩]
        ∧ (submit_contact db caller ct n e p h now ec ed).db.contest
            = db.contest.map (fun c => { c with contact_submitted := true })
        ∧ (∀ caller2 n2 e2 p2 now2 ec2 ed2, n2 ≠ "" → e2 ≠ "" →
            submit_contact (submit_contact db caller ct n e p h now ec ed).db
                caller2 ct n2 e2 p2 h now2 ec2 ed2
              = ⟨.unauthorized, (submit_contact db caller ct n e p h now ec ed).db⟩)) := by
  refine ⟨?_, ?_, ?_⟩
  · intro hl
    exact submit_contact_no_row db caller ct n e p h now ec ed hct hn he hl
  · intro t hl hrej
    exact ⟨submit_contact_reject db caller ct n e p h now ec ed t hct hn he hl hrej,
      rfl⟩
  · intro t hl hu hx
    have hsucc := submit_contact_success db caller ct n e p h now ec ed t
      hct hn he hl hu hx
    have hl2 : lookup (submit_contact db caller ct n e p h now ec ed).db.claim_tokens
        (h (pyStrip ct)) = some ⟨t.actor_hash, t.expires_at, some now⟩ := by
      rw [hsucc]
      dsimp only
      rw [lookup_listUpdate_self, hl]
      rfl
    refine ⟨by rw [hsucc], hl2, by rw [hsucc], by rw [hsucc], ?_⟩
    intro caller2 n2 e2 p2 now2 ec2 ed2 hn2 he2
    exact submit_contact_reject (submit_contact db caller ct n e p h now ec ed).db
      caller2 ct n2 e2 p2 h now2 ec2 ed2 ⟨t.actor_hash, t.expires_at, some now⟩
      hct hn2 he2 hl2 (Or.inl rfl)

/-- C4 witness: a valid redemption of token `"T"` in `dbToken` followed by a
replay of the same token. -/
theorem C4_witness :
    (submit_contact dbToken "X" "T" "Ann" "a@b.c" none id 100 true true).response
      = Response.contactOk true
    ∧ submit_contact (submit_contact dbToken "X" "T" "Ann" "a@b.c" none id 100 true true).db
        "Y" "T" "Bo" "b@c.d" none id 200 true true
      = ⟨.unauthorized,
         (submit_contact dbToken "X" "T" "Ann" "a@b.c" none id 100 true true).db⟩ := by
  have hmain := (C4_token_redemption dbToken "X" "T" "Ann" "a@b.c" none id 100
    true true (by decide) (by decide) (by decide)).2.2
    ⟨"A", 900, none⟩ (by decide) rfl (by decide)
  exact ⟨hmain.1, hmain.2.2.2.2 "Y" "Bo" "b@c.d" none 200 true true
    (by decide) (by decide)⟩

/-- C7: with the test-mode flag off, `admin_reset` answers `404` whatever key
is supplied; with it on and the correct nonempty `x-reset-key`, it clears
`attempt_locks`, `winner_claim_tokens` and `winner_contacts` and nulls the
winner fields, after which `status` reports `{ok: true, closed: false}` and
no actor is blocked. -/
theorem C7_admin_reset (db : DB) (ak : String) (hak : ak ≠ "") :
    (∀ hk, admin_reset db false ak hk = (.notFound, db)
       ∧ Response.notFound.statusCode = 404)
    ∧ (admin_reset db true ak (some ak)
        = (.resetOk,
           ⟨db.contest.map
              (fun c => { c with winner_actor_hash := none,
                                 winner_claimed_at := none,
                                 contact_submitted := false }), [], [], []⟩)
       ∧ (status (admin_reset db true ak (some ak)).2).1 = ⟨true, false⟩
       ∧ (∀ a now,
           activeBlock (lookup (admin_reset db true ak (some ak)).2.attempt_locks a)
             now = none)
       ∧ (admin_reset db true ak (some ak)).2.claim_tokens = []
       ∧ (admin_reset db true ak (some ak)).2.winner_contacts = []) := by
  have heq : admin_reset db true ak (some ak)
      = (.resetOk,
         ⟨db.contest.map
            (fun c => { c with winner_actor_hash := none,
                               winner_claimed_at := none,
                               contact_submitted := false }), [], [], []⟩) := by
    simp [admin_reset, hak]
  refine ⟨fun hk => ⟨rfl, rfl⟩, heq, ?_, ?_, ?_, ?_⟩
  · rw [heq]
    cases hc : db.contest <;> simp [status, DB.winner, hc, truthyStr]
  · intro a now
    rw [heq]
    rfl
  · rw [heq]
  · rw [heq]

/-- C7 witness: resetting `dbWonBlocked` (winner `"W"`, actor `"A"` blocked
until 100) with key `"K"`. -/
theorem C7_witness :
    admin_reset dbWonBlocked false "K" (some "K") = (.notFound, dbWonBlocked)
    ∧ admin_reset dbWonBlocked true "K" (some "K")
        = (.resetOk, ⟨some ⟨none, none, false⟩, [], [], []⟩)
    ∧ (status (admin_reset dbWonBlocked true "K" (some "K")).2).1 = ⟨true, false⟩
    ∧ activeBlock
        (lookup (admin_reset dbWonBlocked true "K" (some "K")).2.attempt_locks "A")
        50 = none := by
  have hmain := C7_admin_reset dbWonBlocked "K" (by decide)
  exact ⟨(hmain.1 (some "K")).1, hmain.2.1.trans (by decide), hmain.2.2.1,
    hmain.2.2.2.1 "A" 50⟩

/-- C8: `submit_contact` never reads the request, so its outcome — response
and state effect alike — is identical for any two caller identities
presenting the same token and payload: the token is not re-bound to the
winning actor. -/
theorem C8_caller_independent (db : DB) (a1 a2 ct n e : String)
    (p : Option String) (h : String → String) (now : Nat) (ec ed : Bool) :
    submit_contact db a1 ct n e p h now ec ed
      = submit_contact db a2 ct n e p h now ec ed := rfl

end GKompaniet
